import Mathlib

/-!
Verification of the database-integrity-error classification and mapping
pipeline of the `generative-dialogue-system` repository.

The development shallowly embeds, in order:
* `src/app/exceptions/base.py` — the app-level `RepositoryError` hierarchy,
  its payload serialization (`to_payload`) and HTTP status lookup
  (`http_status`);
* `src/app/exceptions/integrity_classifier.py` — the constraint-violation
  taxonomy and the heuristic classifier (Postgres diagnostic codes first,
  keyword matching over the raw message as a fallback);
* `src/app/exceptions/mapper.py` — best-effort column extraction from the
  raw driver message (three dialect-specific regexes tried in sequence),
  the mapper `raise_mapped_integrity_error`, and the transactional guard
  `db_error_handler`.

Python exception *instances* are embedded as plain records; raising an
exception is embedded as returning the corresponding value.  Logging and
the session rollback are I/O side effects with no influence on the values
the claims speak about and are not modelled.
-/

set_option maxRecDepth 20000

namespace App

/-! ### Character helpers

Quote characters are produced via `Char.ofNat` so that the embedded regex
patterns and test messages can be written without quote literals:
39 is the ASCII single quote, 34 the double quote, 10 the newline. -/

def squote : Char := Char.ofNat 39

def dquote : Char := Char.ofNat 34

def nlChar : Char := Char.ofNat 10

/-- A one-character string holding a single quote. -/
def sq : String := String.mk [squote]

/-- A one-character string holding a double quote. -/
def dq : String := String.mk [dquote]

/-- Embedding of Python `str.lower()` for the ASCII messages the pipeline
handles (`Char.toLower` is exactly the ASCII case mapping). -/
def pyLower (s : String) : String := String.mk (s.data.map Char.toLower)

/-! ### `base.py`: the app-level `RepositoryError` hierarchy -/

/-- Embedding of an instance of `base.RepositoryError` (or of one of its
subclasses): the four attributes set by `RepositoryError.__init__`. -/
structure RepositoryError where
  message : String
  fields : Option (List String)
  constraint : Option String
  error_code : Option String
deriving Repr, DecidableEq

/-- `RepositoryError.__init__`: note `self.fields = list(fields) if fields
else None`, so a passed-in empty list is normalized to `None`. -/
def RepositoryError.init (message : String) (fields : Option (List String))
    (constraint : Option String) (error_code : Option String) : RepositoryError :=
  { message := message
    fields := match fields with
      | some l => if l.isEmpty then none else some l
      | none => none
    constraint := constraint
    error_code := error_code }

/-- `base.NotFoundError.__init__`: forwards with `error_code="not_found"`. -/
def NotFoundError (message : String) (fields : Option (List String)) : RepositoryError :=
  RepositoryError.init message fields none (some "not_found")

/-- `base.DuplicateError.__init__`: forwards with `error_code="duplicate"`. -/
def DuplicateError (message : String) (fields : Option (List String))
    (constraint : Option String) : RepositoryError :=
  RepositoryError.init message fields constraint (some "duplicate")

/-- `base.InvalidFieldError.__init__`: forwards with `error_code="invalid_field"`. -/
def InvalidFieldError (message : String) (fields : Option (List String)) : RepositoryError :=
  RepositoryError.init message fields none (some "invalid_field")

/-- A value of a payload dict entry: either a string (`detail`, `code`) or a
list of strings (`fields`). -/
inductive PVal where
  | s (v : String)
  | ls (v : List String)
deriving Repr, DecidableEq

/-- `RepositoryError.to_payload`: builds `{"detail": ...}` and conditionally
inserts `"code"` and `"fields"` (Python truthiness: `None` and empty
collections are falsy).  The payload dict is embedded as an association
list in insertion order.  The `constraint` attribute is never read. -/
def to_payload (e : RepositoryError) : List (String × PVal) :=
  [("detail", PVal.s e.message)]
    ++ (match e.error_code with
        | some c => if c = "" then [] else [("code", PVal.s c)]
        | none => [])
    ++ (match e.fields with
        | some l => if l.isEmpty then [] else [("fields", PVal.ls l)]
        | none => [])

/-- `RepositoryError.ERROR_CODE_TO_STATUS`, in source order. -/
def ERROR_CODE_TO_STATUS : List (String × Nat) :=
  [("duplicate", 409), ("invalid_field", 422), ("not_found", 404), ("invalid_input", 422)]

/-- `RepositoryError.http_status`: `if self.error_code:` (truthiness, so the
empty string also falls through to the default) then a `.get(..., 400)`
lookup, else `400`. -/
def http_status (e : RepositoryError) : Nat :=
  match e.error_code with
  | some c => if c = "" then 400 else ((ERROR_CODE_TO_STATUS.lookup c).getD 400)
  | none => 400

/-! ### `integrity_classifier.py`: taxonomy and classifier -/

/-- The closed constraint-violation taxonomy: the five
`ConstraintViolationError` subclasses of `integrity_classifier.py`
(`UniqueConstraintError`, `NotNullConstraintError`,
`ForeignKeyConstraintError`, `CheckConstraintError`,
`UnknownIntegrityError`) embedded as a sum type. -/
inductive CVariant where
  | Unique
  | NotNull
  | ForeignKey
  | Check
  | Unknown
deriving Repr, DecidableEq

/-- Embedding of the driver-level error object `exc.orig`:
`pgcode` attribute (absent ↦ `none`), `diag` attribute (absent/falsy ↦
`none`; present ↦ `some` of its `constraint_name` attribute), and its
`str()` rendering (the raw driver message). -/
structure Orig where
  pgcode : Option String
  diag : Option (Option String)
  str : String
deriving Repr, DecidableEq

/-- Embedding of a `sqlalchemy.exc.IntegrityError` instance: its `.orig`
attribute (possibly `None`) and its own `str()` rendering. -/
structure IntegrityError where
  orig : Option Orig
  str : String
deriving Repr, DecidableEq

/-- `getattr(orig, "pgcode", None)` where `orig` itself may be `None`. -/
def getPgcode : Option Orig → Option String
  | none => none
  | some o => o.pgcode

/-- `diag = getattr(orig, "diag", None); constraint_name =
getattr(diag, "constraint_name", None) if diag else None`. -/
def diagConstraint : Option Orig → Option String
  | none => none
  | some o => match o.diag with
    | some cn => cn
    | none => none

/-- `str(orig)` as used by `classify_integrity_error` (Python renders
`None` as the string `"None"`). -/
def origStr (exc : IntegrityError) : String :=
  match exc.orig with
  | some o => o.str
  | none => "None"

/-- `msg = str(orig) if orig is not None else str(exc)` as used by
`extract_columns_from_integrity` and the mapper. -/
def msgForExtract (exc : IntegrityError) : String :=
  match exc.orig with
  | some o => o.str
  | none => exc.str

/-- `PGCODE_EXCEPTION_MAP` keyed by the Postgres SQLSTATE strings (the
`PostgresErrorCodes` values are `str`-enum members, so the dict lookup with
a plain string key succeeds by string equality). -/
def PGCODE_EXCEPTION_MAP : List (String × CVariant) :=
  [("23505", CVariant.Unique), ("23502", CVariant.NotNull),
   ("23503", CVariant.ForeignKey), ("23514", CVariant.Check)]

/-- `_classify_from_postgres_diag(orig)`: returns `(None, None)` when
`pgcode` is missing or falsy (empty string); otherwise looks the code up in
`PGCODE_EXCEPTION_MAP`, degrading to `UnknownIntegrityError` for an
unrecognized code, always paired with the diagnostic constraint name. -/
def classify_from_postgres_diag (orig : Option Orig) : Option CVariant × Option String :=
  match getPgcode orig with
  | none => (none, none)
  | some code =>
    if code = "" then (none, none)
    else
      match PGCODE_EXCEPTION_MAP.lookup code with
      | some cls => (some cls, diagConstraint orig)
      | none => (some CVariant.Unknown, diagConstraint orig)

/-- Executable substring test: Python's `keyword in msg`. -/
def containsSub : List Char → List Char → Bool
  | needle, [] => needle.isEmpty
  | needle, c :: t => needle.isPrefixOf (c :: t) || containsSub needle t

/-- `_match_any(msg, keywords)`: `any(keyword in msg for keyword in keywords)`. -/
def match_any (msg : String) (keywords : List String) : Bool :=
  keywords.any (fun k => containsSub k.data msg.data)

/-- The keyword lists of `_classify_from_generic_message`, in source order. -/
def uniqueKeywords : List String :=
  ["unique constraint", "unique failed", "unique violation", "duplicate"]

def notNullKeywords : List String :=
  ["not null constraint", "not null", "null value in column"]

def foreignKeyKeywords : List String :=
  ["foreign key constraint", "foreign key", "is not present in table"]

def checkKeywords : List String :=
  ["check constraint", "check failed"]

/-- `_classify_from_generic_message(msg)`: lowercases the message and scans
the four keyword lists in fixed priority order; first hit wins, otherwise
`UnknownIntegrityError`.  The constraint name is always `None` here. -/
def classify_from_generic_message (msg : String) : CVariant × Option String :=
  let normalized := pyLower msg
  if match_any normalized uniqueKeywords then (CVariant.Unique, none)
  else if match_any normalized notNullKeywords then (CVariant.NotNull, none)
  else if match_any normalized foreignKeyKeywords then (CVariant.ForeignKey, none)
  else if match_any normalized checkKeywords then (CVariant.Check, none)
  else (CVariant.Unknown, none)

/-- `classify_integrity_error(exc)`: prefer the Postgres diagnostic
classification; if it yielded no class (no usable `pgcode`), fall back to
generic message parsing of `str(orig)`. -/
def classify_integrity_error (exc : IntegrityError) : CVariant × Option String :=
  match classify_from_postgres_diag exc.orig with
  | (some cls, name) => (cls, name)
  | (none, _) => classify_from_generic_message (origStr exc)

/-! ### `mapper.py`: column extraction

Each `re.search` call of `mapper.py` is embedded as an executable scanner.
`searchPos tryAt` is `re.search`: it tries the pattern at every position,
leftmost first.  Each `tryAt` function implements one concrete pattern,
including its backtracking behaviour, which for these patterns reduces to
the maximal-munch rules spelled out in the doc comments.  `IGNORECASE`
literals are matched by comparing `Char.toLower` of the input against the
lowercased pattern; captured text keeps its original case. -/

/-- Match a lowercased literal case-insensitively at the head of the input;
on success return the rest of the input. -/
def matchLitCI : List Char → List Char → Option (List Char)
  | [], input => some input
  | _ :: _, [] => none
  | p :: ps, c :: cs => if c.toLower = p then matchLitCI ps cs else none

/-- `re.search`: try the pattern at each position, leftmost match first. -/
def searchPos (tryAt : List Char → Option (List Char)) : List Char → Option (List Char)
  | [] => tryAt []
  | c :: rest =>
    match tryAt (c :: rest) with
    | some r => some r
    | none => searchPos tryAt rest

/-- Greedy `.*` (which cannot cross a newline) followed by a continuation:
the engine prefers the longest consumption, i.e. the rightmost position at
which the continuation succeeds. -/
def dotStarThen (cont : List Char → Option (List Char)) : List Char → Option (List Char)
  | [] => cont []
  | c :: cs =>
    if c = nlChar then cont (c :: cs)
    else
      match dotStarThen cont cs with
      | some r => some r
      | none => cont (c :: cs)

/-- The pattern literals of `mapper.py`, lowercased for `IGNORECASE`. -/
def litNullValue : List Char := "null value in column ".data ++ [dquote]

def litKeyParen : List Char := "key (".data

def litUniqueFailed : List Char := "unique constraint failed: ".data

def litNotNullFailed : List Char := "not null constraint failed: ".data

def litForKey : List Char := "for key ".data

def litSpForKeySp : List Char := (" for key ").data

def litDupEntry : List Char := "duplicate entry ".data

/-- Python `str.strip`-style trimming of both ends by a predicate. -/
def pyStrip (p : Char → Bool) (l : List Char) : List Char :=
  ((l.dropWhile p).reverse.dropWhile p).reverse

/-- Pattern `null value in column "(?P<col>[^"]+)"` (IGNORECASE) at one
position: after the literal, `[^"]+` greedily takes the run up to the next
double quote, which must exist and be nonempty. -/
def tryNullValueCol (input : List Char) : Option (List Char) :=
  match matchLitCI litNullValue input with
  | none => none
  | some rest =>
    let cap := rest.takeWhile (fun c => c != dquote)
    let rem := rest.dropWhile (fun c => c != dquote)
    if cap.isEmpty then none
    else
      match rem with
      | c :: _ => if c = dquote then some cap else none
      | [] => none

/-- Pattern `key \((?P<cols>[^)]+)\)=` (IGNORECASE) at one position:
after the literal, `[^)]+` greedily takes the run up to `)`, which must be
followed by `=`. -/
def tryKeyParens (input : List Char) : Option (List Char) :=
  match matchLitCI litKeyParen input with
  | none => none
  | some rest =>
    let cap := rest.takeWhile (fun c => c != ')')
    let rem := rest.dropWhile (fun c => c != ')')
    if cap.isEmpty then none
    else
      match rem with
      | c :: '=' :: _ => if c = ')' then some cap else none
      | _ => none

/-- `[c.strip().strip(chr(34)) for c in cols.split(",")]` of
`_extract_columns_postgres`. -/
def pgProcessCols (cap : List Char) : List String :=
  (cap.splitOn ',').map
    (fun c => String.mk (pyStrip (fun x => x == dquote) (pyStrip Char.isWhitespace c)))

/-- `_extract_columns_postgres(msg)`: `if not msg: return None`, then the
not-null pattern, then the `Key (...)=` pattern. -/
def extract_columns_postgres (msg : String) : Option (List String) :=
  if msg = "" then none
  else
    match searchPos tryNullValueCol msg.data with
    | some cap => some [String.mk cap]
    | none =>
      match searchPos tryKeyParens msg.data with
      | some cap => some (pgProcessCols cap)
      | none => none

/-- Pattern `LIT(?P<cols>.+)$` (IGNORECASE, no MULTILINE/DOTALL) at one
position: `.+` greedily takes the run of non-newline characters after the
literal; `$` then requires end of string or a sole trailing newline. -/
def tryLitToEol (lit : List Char) (input : List Char) : Option (List Char) :=
  match matchLitCI lit input with
  | none => none
  | some rest =>
    let cap := rest.takeWhile (fun c => c != nlChar)
    let rem := rest.dropWhile (fun c => c != nlChar)
    if cap.isEmpty then none
    else
      match rem with
      | [] => some cap
      | [c] => if c = nlChar then some cap else none
      | _ => none

/-- `re.split(r",\s*", cols)` — every comma is a split point and the
whitespace run after it is consumed, i.e. split on commas and strip leading
whitespace from every piece but the first — then
`c.split(".")[-1].strip()` for each piece (`_extract_columns_sqlite`). -/
def sqliteProcessCols (cap : List Char) : List String :=
  let pieces :=
    match cap.splitOn ',' with
    | [] => []
    | p :: ps => p :: ps.map (List.dropWhile Char.isWhitespace)
  pieces.map (fun c => String.mk (pyStrip Char.isWhitespace ((c.splitOn '.').getLastD [])))

/-- `_extract_columns_sqlite(msg)`: the `UNIQUE constraint failed:` pattern,
then the `NOT NULL constraint failed:` pattern. -/
def extract_columns_sqlite (msg : String) : Option (List String) :=
  match searchPos (tryLitToEol litUniqueFailed) msg.data with
  | some cap => some (sqliteProcessCols cap)
  | none =>
    match searchPos (tryLitToEol litNotNullFailed) msg.data with
    | some cap => some (sqliteProcessCols cap)
    | none => none

/-- First MySQL pattern `for key '? (?P<key>[^']+)'?` (IGNORECASE) at one
position.  Note the pattern text has a mandatory space between the optional
quote and the capture group, so after the literal `for key ` it requires
either a quote followed by a space, or a space; then `[^']+` greedily takes
the nonempty run up to the next single quote and the trailing `'?` always
succeeds. -/
def tryForKeyQuoteSpace (input : List Char) : Option (List Char) :=
  match matchLitCI litForKey input with
  | none => none
  | some rest =>
    match rest with
    | c1 :: c2 :: rest2 =>
      if c1 = squote then
        if c2 = ' ' then
          let cap := rest2.takeWhile (fun c => c != squote)
          if cap.isEmpty then none else some cap
        else none
      else if c1 = ' ' then
        let cap := (c2 :: rest2).takeWhile (fun c => c != squote)
        if cap.isEmpty then none else some cap
      else none
    | _ => none

/-- Continuation of the second MySQL pattern after `.*`:
` for key '?([^']+)'?` — the literal ` for key `, an optional quote, then a
nonempty greedy run up to the next single quote. -/
def tryAfterDotStar (input : List Char) : Option (List Char) :=
  match matchLitCI litSpForKeySp input with
  | none => none
  | some rest =>
    match rest with
    | c :: rest2 =>
      if c = squote then
        let cap := rest2.takeWhile (fun x => x != squote)
        if cap.isEmpty then none else some cap
      else
        let cap := (c :: rest2).takeWhile (fun x => x != squote)
        if cap.isEmpty then none else some cap
    | [] => none

/-- Second MySQL pattern `Duplicate entry .* for key '?([^']+)'?`
(IGNORECASE) at one position. -/
def tryDupEntry (input : List Char) : Option (List Char) :=
  match matchLitCI litDupEntry input with
  | none => none
  | some rest => dotStarThen tryAfterDotStar rest

/-- `_extract_columns_mysql(msg)`: the quote-space pattern, then the
`Duplicate entry` fallback pattern. -/
def extract_columns_mysql (msg : String) : Option (List String) :=
  match searchPos tryForKeyQuoteSpace msg.data with
  | some key => some [String.mk key]
  | none =>
    match searchPos tryDupEntry msg.data with
    | some key => some [String.mk key]
    | none => none

/-- Python truthiness of an optional list (`if cols:`). -/
def optColsTruthy : Option (List String) → Bool
  | none => false
  | some l => !l.isEmpty

/-- Python truthiness of an optional string (`if constraint_name:`). -/
def optStrTruthy : Option String → Bool
  | none => false
  | some s => s != ""

/-- `extract_columns_from_integrity(exc)`: try the Postgres, SQLite and
MySQL extractors in sequence, returning the first truthy result. -/
def extract_columns_from_integrity (exc : IntegrityError) : Option (List String) :=
  let msg := msgForExtract exc
  let cols := extract_columns_postgres msg
  if optColsTruthy cols then cols
  else
    let cols := extract_columns_sqlite msg
    if optColsTruthy cols then cols
    else
      let cols := extract_columns_mysql msg
      if optColsTruthy cols then cols
      else none

/-! ### `mapper.py`: the mapper and the transactional guard -/

/-- An exception value as seen inside the guarded unit of work: a
`sqlalchemy.exc.IntegrityError`, an app-level `RepositoryError` instance
(or subclass instance), or any other `Exception` (identified by a tag). -/
inductive PyExc where
  | integrityError (e : IntegrityError)
  | repoError (e : RepositoryError)
  | otherExc (tag : String)
deriving Repr, DecidableEq

/-- A raised app-level exception together with its `__cause__`
(set by `raise ... from exc`, otherwise `None`). -/
structure Raised where
  err : RepositoryError
  cause : Option PyExc
deriving Repr, DecidableEq

/-- `model_part = f"{model_name}" if model_name else "Record"`. -/
def modelPart : Option String → String
  | some s => if s = "" then "Record" else s
  | none => "Record"

/-- `", ".join(columns)` (only evaluated under a truthiness guard). -/
def joinCols : Option (List String) → String
  | none => ""
  | some l => String.intercalate ", " l

/-- `raise_mapped_integrity_error(exc, model_name)`: classify, extract
columns, and raise the mapped app-level exception.  Each `raise` statement
is embedded as returning the corresponding `Raised` value; `constraint_name`
is interpolated via `getD ""` only under the truthiness guard that ensures
it is a nonempty string.  Only the final generic raise uses
`raise ... from exc`. -/
def raise_mapped_integrity_error (exc : IntegrityError) (model_name : Option String) : Raised :=
  let cls := (classify_integrity_error exc).1
  let constraint_name := (classify_integrity_error exc).2
  let columns := extract_columns_from_integrity exc
  let model_part := modelPart model_name
  match cls with
  | CVariant.Unique =>
    if optColsTruthy columns then
      ⟨DuplicateError (model_part ++ " already exists for field(s): " ++ joinCols columns)
        columns constraint_name, none⟩
    else if optStrTruthy constraint_name then
      ⟨DuplicateError (model_part ++ " already exists (constraint: "
          ++ constraint_name.getD "" ++ ")") none constraint_name, none⟩
    else
      ⟨DuplicateError (model_part ++ " already exists (unique constraint)")
        none constraint_name, none⟩
  | CVariant.NotNull =>
    if optColsTruthy columns then
      ⟨RepositoryError.init ("Missing required field(s): " ++ joinCols columns
          ++ " for " ++ model_part) columns constraint_name none, none⟩
    else if optStrTruthy constraint_name then
      ⟨RepositoryError.init ("Missing required field for " ++ model_part
          ++ " (constraint: " ++ constraint_name.getD "" ++ ")") none constraint_name none, none⟩
    else
      ⟨RepositoryError.init ("Missing required field for " ++ model_part) none none none, none⟩
  | CVariant.ForeignKey =>
    if optColsTruthy columns then
      ⟨RepositoryError.init (model_part ++ " referenced entity not found for field(s): "
          ++ joinCols columns) columns constraint_name none, none⟩
    else if optStrTruthy constraint_name then
      ⟨RepositoryError.init (model_part ++ " foreign key violation (constraint: "
          ++ constraint_name.getD "" ++ ")") none constraint_name none, none⟩
    else
      ⟨RepositoryError.init (model_part ++ " foreign key constraint violated") none none none, none⟩
  | CVariant.Check =>
    ⟨RepositoryError.init (model_part ++ " business rule violated (check constraint).")
      none constraint_name none, none⟩
  | CVariant.Unknown =>
    ⟨RepositoryError.init (model_part ++ " database integrity error.") none none none,
      some (PyExc.integrityError exc)⟩

/-- The observable outcome of running a unit of work inside
`db_error_handler`: normal completion, or an exception propagating out of
the guard (with its `__cause__`). -/
inductive GuardOutcome where
  | ok
  | raised (e : PyExc) (cause : Option PyExc)
deriving Repr, DecidableEq

/-- `db_error_handler(db, model_name)`: the body either completes or
raises some `PyExc`.  An `IntegrityError` is rolled back and mapped via
`raise_mapped_integrity_error`; any other exception is rolled back, logged,
and converted to a generic `RepositoryError` raised `from exc`.  (Rollback
and logging are I/O and not modelled; an exception raised inside an
`except` clause is not caught by the later clauses of the same `try`.) -/
def db_error_handler (model_name : Option String) (body : Except PyExc Unit) : GuardOutcome :=
  match body with
  | Except.ok _ => GuardOutcome.ok
  | Except.error (PyExc.integrityError exc) =>
    let r := raise_mapped_integrity_error exc model_name
    GuardOutcome.raised (PyExc.repoError r.err) r.cause
  | Except.error e =>
    GuardOutcome.raised
      (PyExc.repoError (RepositoryError.init
        ("Failed to operate on "
          ++ (match model_name with
              | some s => if s = "" then "database" else s
              | none => "database"))
        none none none))
      (some e)

/-! ### Specification-side predicates and concrete example inputs -/

/-- The message text matches some keyword of `kws` (case-insensitively):
some keyword occurs as a substring of the lowercased message. -/
def hitsAny (msg : String) (kws : List String) : Prop :=
  ∃ k ∈ kws, k.data <:+: (pyLower msg).data

/-- A Postgres-shaped duplicate-key message from which no columns are
extractable (it matches none of the three extraction patterns). -/
def msgC5 : String :=
  "duplicate key value violates unique constraint " ++ dq ++ "users_email_key" ++ dq

/-- The Postgres-shaped violation of end-to-end scenario 1: diagnostic code
`23505`, constraint name `users_email_key`. -/
def excC5 : IntegrityError :=
  ⟨some ⟨some "23505", some (some "users_email_key"), msgC5⟩, msgC5⟩

/-- A violation carrying diagnostic code `23505` whose message text would
match the check-constraint keyword category. -/
def excC2 : IntegrityError :=
  ⟨some ⟨some "23505", some (some "users_email_key"), "check failed"⟩, "check failed"⟩

/-- A message containing `for key 'myidx'` that is not produced by a
`Duplicate entry` error. -/
def msgC9 : String := "INSERT failed for key " ++ sq ++ "myidx" ++ sq

/-- A violation whose raw message is `msgC9` and which carries no
structured diagnostics. -/
def excC9 : IntegrityError := ⟨some ⟨none, none, msgC9⟩, msgC9⟩

end App

namespace App

/-! ### General lemmas -/

/-- `containsSub` decides substring containment. -/
theorem containsSub_iff_infix {needle hay : List Char} :
    containsSub needle hay = true ↔ needle <:+: hay := by
  induction hay with
  | nil =>
    simp only [containsSub, List.isEmpty_iff, List.infix_nil]
  | cons c t ih =>
    simp [containsSub, ih, List.isPrefixOf_iff_prefix, List.infix_cons_iff]

/-- `_match_any` over the lowercased message decides `hitsAny`. -/
theorem match_any_iff (msg : String) (kws : List String) :
    match_any (pyLower msg) kws = true ↔ hitsAny msg kws := by
  simp [match_any, List.any_eq_true, hitsAny, containsSub_iff_infix]

/-- The first payload entry is always the detail entry. -/
theorem lookup_detail (e : RepositoryError) :
    (to_payload e).lookup "detail" = some (PVal.s e.message) := by
  simp [to_payload, List.lookup]

/-- When `pgcode` is missing or empty, classification falls back to the
generic message parser. -/
theorem classify_fallback (exc : IntegrityError)
    (hpg : getPgcode exc.orig = none ∨ getPgcode exc.orig = some "") :
    classify_integrity_error exc = classify_from_generic_message (origStr exc) := by
  rcases hpg with h | h <;>
    simp [classify_integrity_error, classify_from_postgres_diag, h]

/-- The Check branch of the mapper produces the fixed safe message,
independent of the raw driver text and extracted columns. -/
theorem check_branch_message (exc : IntegrityError) (model_name : Option String)
    (h : (classify_integrity_error exc).1 = CVariant.Check) :
    (raise_mapped_integrity_error exc model_name).err.message
      = modelPart model_name ++ " business rule violated (check constraint)." := by
  unfold raise_mapped_integrity_error
  rw [h]
  rfl

/-- The Unknown branch of the mapper produces the fixed safe message,
independent of the raw driver text and extracted columns. -/
theorem unknown_branch_message (exc : IntegrityError) (model_name : Option String)
    (h : (classify_integrity_error exc).1 = CVariant.Unknown) :
    (raise_mapped_integrity_error exc model_name).err.message
      = modelPart model_name ++ " database integrity error." := by
  unfold raise_mapped_integrity_error
  rw [h]
  rfl

/-! ### Claim theorems -/

/-- C1: every exception raised by the unit of work executed inside the
`db_error_handler` guard propagates out as an app-level `RepositoryError`
(or subclass) value; the raw storage-level exception never escapes the
guard boundary. -/
theorem C1_guard_raises_only_repository_errors
    (model_name : Option String) (body : Except PyExc Unit)
    (e : PyExc) (cause : Option PyExc)
    (h : db_error_handler model_name body = GuardOutcome.raised e cause) :
    ∃ r : RepositoryError, e = PyExc.repoError r := by
  cases body with
  | ok a => simp [db_error_handler] at h
  | error ex =>
    cases ex with
    | integrityError i =>
      simp only [db_error_handler, GuardOutcome.raised.injEq] at h
      exact ⟨(raise_mapped_integrity_error i model_name).err, h.1.symm⟩
    | repoError r =>
      simp only [db_error_handler, GuardOutcome.raised.injEq] at h
      exact ⟨_, h.1.symm⟩
    | otherExc t =>
      simp only [db_error_handler, GuardOutcome.raised.injEq] at h
      exact ⟨_, h.1.symm⟩

/-- Witness for C1 at a concrete run: a guarded unit of work failing with a
generic exception surfaces a `RepositoryError` value. -/
theorem C1_witness :
    ∃ r : RepositoryError,
      PyExc.repoError (RepositoryError.init "Failed to operate on database" none none none)
        = PyExc.repoError r :=
  C1_guard_raises_only_repository_errors none (Except.error (PyExc.otherExc "boom"))
    (PyExc.repoError (RepositoryError.init "Failed to operate on database" none none none))
    (some (PyExc.otherExc "boom")) rfl

/-- C2: when the underlying driver error carries a nonempty `pgcode` that is
present in `PGCODE_EXCEPTION_MAP`, classification returns that table's
variant together with the diagnostic constraint name, without consulting
the message text (the conclusion holds for every message the violation may
carry). -/
theorem C2_diagnostic_precedence
    (exc : IntegrityError) (o : Orig) (code : String) (v : CVariant)
    (ho : exc.orig = some o) (hcode : o.pgcode = some code) (hne : code ≠ "")
    (hmap : PGCODE_EXCEPTION_MAP.lookup code = some v) :
    classify_integrity_error exc = (v, diagConstraint exc.orig) := by
  simp [classify_integrity_error, classify_from_postgres_diag, getPgcode, ho, hcode, hne, hmap]

/-- Witness for C2: code `23505` wins over a message whose text would match
the check-constraint category under the text fallback. -/
theorem C2_witness :
    classify_integrity_error excC2 = (CVariant.Unique, some "users_email_key")
    ∧ classify_from_generic_message "check failed" = (CVariant.Check, none) :=
  ⟨C2_diagnostic_precedence excC2 ⟨some "23505", some (some "users_email_key"), "check failed"⟩
      "23505" CVariant.Unique rfl rfl (by decide) rfl,
    by decide⟩

/-- C5: end-to-end for the Postgres-shaped violation with code `23505`,
constraint `users_email_key`, a message with no extractable columns and
entity name `User`: a `DuplicateError` with error code `duplicate`,
`http_status() = 409` and the exact two-entry payload. -/
theorem C5_end_to_end :
    (raise_mapped_integrity_error excC5 (some "User")).err
      = DuplicateError "User already exists (constraint: users_email_key)" none
          (some "users_email_key")
    ∧ (raise_mapped_integrity_error excC5 (some "User")).err.error_code = some "duplicate"
    ∧ http_status (raise_mapped_integrity_error excC5 (some "User")).err = 409
    ∧ to_payload (raise_mapped_integrity_error excC5 (some "User")).err
      = [("detail", PVal.s "User already exists (constraint: users_email_key)"),
         ("code", PVal.s "duplicate")] :=
  ⟨rfl, rfl, rfl, rfl⟩

/-- C6: `http_status` agrees with the fixed code-to-status table:
`duplicate ↦ 409`, `invalid_field ↦ 422`, `not_found ↦ 404`,
`invalid_input ↦ 422`, and any other or missing code yields 400. -/
theorem C6_status_table (e : RepositoryError) :
    (e.error_code = some "duplicate" → http_status e = 409)
    ∧ (e.error_code = some "invalid_field" → http_status e = 422)
    ∧ (e.error_code = some "not_found" → http_status e = 404)
    ∧ (e.error_code = some "invalid_input" → http_status e = 422)
    ∧ (∀ c : String, e.error_code = some c →
        c ∉ (["duplicate", "invalid_field", "not_found", "invalid_input"] : List String) →
        http_status e = 400)
    ∧ (e.error_code = none → http_status e = 400) := by
  refine ⟨?_, ?_, ?_, ?_, ?_, ?_⟩
  · intro h; simp only [http_status]; rw [h]; rfl
  · intro h; simp only [http_status]; rw [h]; rfl
  · intro h; simp only [http_status]; rw [h]; rfl
  · intro h; simp only [http_status]; rw [h]; rfl
  · intro c h hne
    simp only [List.mem_cons, List.mem_singleton, not_or] at hne
    obtain ⟨h1, h2, h3, h4, _⟩ := hne
    simp only [http_status]; rw [h]
    by_cases hc : c = ""
    · simp [hc]
    · have k1 : (c == "duplicate") = false := by simp [h1]
      have k2 : (c == "invalid_field") = false := by simp [h2]
      have k3 : (c == "not_found") = false := by simp [h3]
      have k4 : (c == "invalid_input") = false := by simp [h4]
      simp [hc, ERROR_CODE_TO_STATUS, List.lookup, k1, k2, k3, k4]
  · intro h; simp only [http_status]; rw [h]

/-- Witness for C6 at concrete errors covering each conjunct. -/
theorem C6_witness :
    http_status (RepositoryError.init "a" none none (some "duplicate")) = 409
    ∧ http_status (RepositoryError.init "b" none none (some "not_found")) = 404
    ∧ http_status (RepositoryError.init "c" none none (some "weird_code")) = 400
    ∧ http_status (RepositoryError.init "d" none none none) = 400 :=
  ⟨(C6_status_table _).1 rfl,
    (C6_status_table _).2.2.1 rfl,
    (C6_status_table _).2.2.2.2.1 "weird_code" rfl (by decide),
    (C6_status_table _).2.2.2.2.2 rfl⟩

/-- C10: a non-`IntegrityError` exception raised inside the guard is
replaced by a fresh generic `RepositoryError` with message
`Failed to operate on {model}`, no error code and no fields, so its
`http_status()` is 400; the original exception survives only as the
chained cause. -/
theorem C10_generic_conversion (model : String) (e : PyExc)
    (hm : model ≠ "")
    (hi : ∀ ie : IntegrityError, e ≠ PyExc.integrityError ie) :
    db_error_handler (some model) (Except.error e) =
      GuardOutcome.raised
        (PyExc.repoError
          (RepositoryError.init ("Failed to operate on " ++ model) none none none))
        (some e)
    ∧ (RepositoryError.init ("Failed to operate on " ++ model) none none none).error_code = none
    ∧ (RepositoryError.init ("Failed to operate on " ++ model) none none none).fields = none
    ∧ http_status (RepositoryError.init ("Failed to operate on " ++ model) none none none)
      = 400 := by
  refine ⟨?_, rfl, rfl, rfl⟩
  cases e with
  | integrityError i => exact absurd rfl (hi i)
  | repoError r => simp [db_error_handler, hm]
  | otherExc t => simp [db_error_handler, hm]

/-- Witness for C10: a domain `NotFoundError` (code `not_found`, status 404)
raised inside the guard surfaces as the generic 400 `RepositoryError`. -/
theorem C10_witness :
    db_error_handler (some "User")
        (Except.error (PyExc.repoError (NotFoundError "Not found" none))) =
      GuardOutcome.raised
        (PyExc.repoError
          (RepositoryError.init ("Failed to operate on " ++ "User") none none none))
        (some (PyExc.repoError (NotFoundError "Not found" none)))
    ∧ http_status (NotFoundError "Not found" none) = 404 :=
  ⟨(C10_generic_conversion "User" (PyExc.repoError (NotFoundError "Not found" none))
      (by decide) (fun ie h => PyExc.noConfusion h)).1,
    rfl⟩

/-- C3: with no structured diagnostic code, classification matches the
lowercased raw message against the keyword lists in the fixed order
unique → not-null → foreign-key → check, returning the variant of the
first list containing a matching keyword (so a message hitting both the
unique and the check lists is classified Unique by the first conjunct). -/
theorem C3_keyword_priority (exc : IntegrityError)
    (hpg : getPgcode exc.orig = none ∨ getPgcode exc.orig = some "") :
    (hitsAny (origStr exc) uniqueKeywords →
        classify_integrity_error exc = (CVariant.Unique, none))
    ∧ (¬ hitsAny (origStr exc) uniqueKeywords →
        hitsAny (origStr exc) notNullKeywords →
        classify_integrity_error exc = (CVariant.NotNull, none))
    ∧ (¬ hitsAny (origStr exc) uniqueKeywords →
        ¬ hitsAny (origStr exc) notNullKeywords →
        hitsAny (origStr exc) foreignKeyKeywords →
        classify_integrity_error exc = (CVariant.ForeignKey, none))
    ∧ (¬ hitsAny (origStr exc) uniqueKeywords →
        ¬ hitsAny (origStr exc) notNullKeywords →
        ¬ hitsAny (origStr exc) foreignKeyKeywords →
        hitsAny (origStr exc) checkKeywords →
        classify_integrity_error exc = (CVariant.Check, none)) := by
  rw [classify_fallback exc hpg]
  have bu := match_any_iff (origStr exc) uniqueKeywords
  have bn := match_any_iff (origStr exc) notNullKeywords
  have bf := match_any_iff (origStr exc) foreignKeyKeywords
  have bc := match_any_iff (origStr exc) checkKeywords
  refine ⟨?_, ?_, ?_, ?_⟩
  · intro hu
    simp [classify_from_generic_message, bu.mpr hu]
  · intro hu hn
    have ku : match_any (pyLower (origStr exc)) uniqueKeywords = false := by
      rw [← Bool.not_eq_true, bu]; exact hu
    simp [classify_from_generic_message, ku, bn.mpr hn]
  · intro hu hn hf
    have ku : match_any (pyLower (origStr exc)) uniqueKeywords = false := by
      rw [← Bool.not_eq_true, bu]; exact hu
    have kn : match_any (pyLower (origStr exc)) notNullKeywords = false := by
      rw [← Bool.not_eq_true, bn]; exact hn
    simp [classify_from_generic_message, ku, kn, bf.mpr hf]
  · intro hu hn hf hc
    have ku : match_any (pyLower (origStr exc)) uniqueKeywords = false := by
      rw [← Bool.not_eq_true, bu]; exact hu
    have kn : match_any (pyLower (origStr exc)) notNullKeywords = false := by
      rw [← Bool.not_eq_true, bn]; exact hn
    have kf : match_any (pyLower (origStr exc)) foreignKeyKeywords = false := by
      rw [← Bool.not_eq_true, bf]; exact hf
    simp [classify_from_generic_message, ku, kn, kf, bc.mpr hc]

/-- Witness for C3: a message hitting both the unique and check keyword
lists is classified Unique. -/
theorem C3_witness :
    classify_integrity_error
        ⟨some ⟨none, none, "UNIQUE constraint and CHECK constraint oddity"⟩, ""⟩
      = (CVariant.Unique, none)
    ∧ hitsAny "UNIQUE constraint and CHECK constraint oddity" checkKeywords :=
  ⟨(C3_keyword_priority ⟨some ⟨none, none, "UNIQUE constraint and CHECK constraint oddity"⟩, ""⟩
      (Or.inl rfl)).1 ⟨"unique constraint", by decide, by decide⟩,
    ⟨"check constraint", by decide, by decide⟩⟩

/-- C4: graceful degradation of the classifier: a present-but-unmapped
diagnostic code yields `(Unknown, constraint_name_from_diagnostics)`, and
an absent code with a message hitting none of the keyword lists yields
`(Unknown, None)`; the classifier is a total function. -/
theorem C4_graceful_degradation :
    (∀ (exc : IntegrityError) (o : Orig) (code : String),
        exc.orig = some o → o.pgcode = some code → code ≠ "" →
        PGCODE_EXCEPTION_MAP.lookup code = none →
        classify_integrity_error exc = (CVariant.Unknown, diagConstraint exc.orig))
    ∧ (∀ exc : IntegrityError,
        (getPgcode exc.orig = none ∨ getPgcode exc.orig = some "") →
        ¬ hitsAny (origStr exc) uniqueKeywords →
        ¬ hitsAny (origStr exc) notNullKeywords →
        ¬ hitsAny (origStr exc) foreignKeyKeywords →
        ¬ hitsAny (origStr exc) checkKeywords →
        classify_integrity_error exc = (CVariant.Unknown, none)) := by
  constructor
  · intro exc o code ho hcode hne hmap
    simp [classify_integrity_error, classify_from_postgres_diag, getPgcode, ho, hcode, hne, hmap]
  · intro exc hpg hu hn hf hc
    rw [classify_fallback exc hpg]
    have ku : match_any (pyLower (origStr exc)) uniqueKeywords = false := by
      rw [← Bool.not_eq_true, match_any_iff]; exact hu
    have kn : match_any (pyLower (origStr exc)) notNullKeywords = false := by
      rw [← Bool.not_eq_true, match_any_iff]; exact hn
    have kf : match_any (pyLower (origStr exc)) foreignKeyKeywords = false := by
      rw [← Bool.not_eq_true, match_any_iff]; exact hf
    have kc : match_any (pyLower (origStr exc)) checkKeywords = false := by
      rw [← Bool.not_eq_true, match_any_iff]; exact hc
    simp [classify_from_generic_message, ku, kn, kf, kc]

/-- Witness for C4: unrecognized code `99999` and an unmatched message. -/
theorem C4_witness :
    classify_integrity_error ⟨some ⟨some "99999", some (some "c1"), "whatever"⟩, ""⟩
      = (CVariant.Unknown, some "c1")
    ∧ classify_integrity_error ⟨some ⟨none, none, "garbled backend noise"⟩, ""⟩
      = (CVariant.Unknown, none) :=
  ⟨C4_graceful_degradation.1 ⟨some ⟨some "99999", some (some "c1"), "whatever"⟩, ""⟩
      ⟨some "99999", some (some "c1"), "whatever"⟩ "99999" rfl rfl (by decide) rfl,
    C4_graceful_degradation.2 ⟨some ⟨none, none, "garbled backend noise"⟩, ""⟩ (Or.inl rfl)
      (by rw [← match_any_iff]; decide) (by rw [← match_any_iff]; decide)
      (by rw [← match_any_iff]; decide) (by rw [← match_any_iff]; decide)⟩

/-- C7: for violations classified Check or Unknown the payload detail is
the fixed safe template — equal details for equal classification, entity
and constraint name whatever the raw driver messages — and, provided the
raw message is not itself a substring of that template, the detail never
contains the raw driver message. -/
theorem C7_no_raw_message_leakage :
    (∀ (exc : IntegrityError) (model_name : Option String),
        (classify_integrity_error exc).1 = CVariant.Check →
        (to_payload (raise_mapped_integrity_error exc model_name).err).lookup "detail"
          = some (PVal.s (modelPart model_name ++ " business rule violated (check constraint).")))
    ∧ (∀ (exc : IntegrityError) (model_name : Option String),
        (classify_integrity_error exc).1 = CVariant.Unknown →
        (to_payload (raise_mapped_integrity_error exc model_name).err).lookup "detail"
          = some (PVal.s (modelPart model_name ++ " database integrity error.")))
    ∧ (∀ (exc₁ exc₂ : IntegrityError) (model_name : Option String) (c : CVariant),
        (c = CVariant.Check ∨ c = CVariant.Unknown) →
        (classify_integrity_error exc₁).1 = c →
        (classify_integrity_error exc₂).1 = c →
        (classify_integrity_error exc₁).2 = (classify_integrity_error exc₂).2 →
        (to_payload (raise_mapped_integrity_error exc₁ model_name).err).lookup "detail"
          = (to_payload (raise_mapped_integrity_error exc₂ model_name).err).lookup "detail")
    ∧ (∀ (exc : IntegrityError) (model_name : Option String),
        (classify_integrity_error exc).1 = CVariant.Check →
        ¬ (msgForExtract exc).data <:+:
            (modelPart model_name ++ " business rule violated (check constraint).").data →
        ∀ s : String,
          (to_payload (raise_mapped_integrity_error exc model_name).err).lookup "detail"
            = some (PVal.s s) →
          ¬ (msgForExtract exc).data <:+: s.data)
    ∧ (∀ (exc : IntegrityError) (model_name : Option String),
        (classify_integrity_error exc).1 = CVariant.Unknown →
        ¬ (msgForExtract exc).data <:+:
            (modelPart model_name ++ " database integrity error.").data →
        ∀ s : String,
          (to_payload (raise_mapped_integrity_error exc model_name).err).lookup "detail"
            = some (PVal.s s) →
          ¬ (msgForExtract exc).data <:+: s.data) := by
  refine ⟨?_, ?_, ?_, ?_, ?_⟩
  · intro exc mn h
    rw [lookup_detail, check_branch_message exc mn h]
  · intro exc mn h
    rw [lookup_detail, unknown_branch_message exc mn h]
  · intro exc1 exc2 mn c hor h1 h2 _
    rcases hor with rfl | rfl
    · rw [lookup_detail, lookup_detail, check_branch_message exc1 mn h1,
        check_branch_message exc2 mn h2]
    · rw [lookup_detail, lookup_detail, unknown_branch_message exc1 mn h1,
        unknown_branch_message exc2 mn h2]
  · intro exc mn h hnc s hs
    rw [lookup_detail, check_branch_message exc mn h] at hs
    simp only [Option.some.injEq, PVal.s.injEq] at hs
    rw [← hs]
    exact hnc
  · intro exc mn h hnc s hs
    rw [lookup_detail, unknown_branch_message exc mn h] at hs
    simp only [Option.some.injEq, PVal.s.injEq] at hs
    rw [← hs]
    exact hnc

/-- Witness for C7 at a check-constraint violation (code `23514`) with raw
text `raw db text`: the detail is the safe template and does not contain
the raw text. -/
theorem C7_witness :
    (to_payload (raise_mapped_integrity_error
          ⟨some ⟨some "23514", some (some "ck1"), "raw db text"⟩, ""⟩ (some "User")).err).lookup
        "detail"
      = some (PVal.s (modelPart (some "User") ++ " business rule violated (check constraint)."))
    ∧ ¬ (msgForExtract ⟨some ⟨some "23514", some (some "ck1"), "raw db text"⟩, ""⟩).data <:+:
        (modelPart (some "User") ++ " business rule violated (check constraint).").data :=
  ⟨C7_no_raw_message_leakage.1 ⟨some ⟨some "23514", some (some "ck1"), "raw db text"⟩, ""⟩
      (some "User") rfl,
    C7_no_raw_message_leakage.2.2.2.1 ⟨some ⟨some "23514", some (some "ck1"), "raw db text"⟩, ""⟩
      (some "User") rfl (by decide)
      (modelPart (some "User") ++ " business rule violated (check constraint).")
      (C7_no_raw_message_leakage.1 ⟨some ⟨some "23514", some (some "ck1"), "raw db text"⟩, ""⟩
        (some "User") rfl)⟩

/-- C8: the payload keys are always a subset of detail/code/fields, the
`constraint` attribute never appears as a key, and two errors differing
only in their `constraint` attribute have identical payloads. -/
theorem C8_payload_excludes_constraint
    (m : String) (f : Option (List String)) (c₁ c₂ ec : Option String) :
    (∀ kv ∈ to_payload (RepositoryError.mk m f c₁ ec),
        kv.1 ∈ (["detail", "code", "fields"] : List String))
    ∧ "constraint" ∉ (to_payload (RepositoryError.mk m f c₁ ec)).map Prod.fst
    ∧ to_payload (RepositoryError.mk m f c₁ ec) = to_payload (RepositoryError.mk m f c₂ ec) := by
  have key : ∀ kv ∈ to_payload (RepositoryError.mk m f c₁ ec),
      kv.1 ∈ (["detail", "code", "fields"] : List String) := by
    intro kv hkv
    rcases ec with _ | c
    · rcases f with _ | l
      · simp [to_payload] at hkv
        subst hkv; simp
      · by_cases hl : l.isEmpty = true
        · simp [to_payload, hl] at hkv; subst hkv; simp
        · simp [to_payload, hl] at hkv
          rcases hkv with h | h <;> (subst h; simp)
    · by_cases hc : c = ""
      · rcases f with _ | l
        · simp [to_payload, hc] at hkv; subst hkv; simp
        · by_cases hl : l.isEmpty = true
          · simp [to_payload, hc, hl] at hkv; subst hkv; simp
          · simp [to_payload, hc, hl] at hkv
            rcases hkv with h | h <;> (subst h; simp)
      · rcases f with _ | l
        · simp [to_payload, hc] at hkv
          rcases hkv with h | h <;> (subst h; simp)
        · by_cases hl : l.isEmpty = true
          · simp [to_payload, hc, hl] at hkv
            rcases hkv with h | h <;> (subst h; simp)
          · simp [to_payload, hc, hl] at hkv
            rcases hkv with h | h | h <;> (subst h; simp)
  refine ⟨key, ?_, rfl⟩
  intro hmem
  rw [List.mem_map] at hmem
  obtain ⟨kv, hkv, hfst⟩ := hmem
  have hin := key kv hkv
  rw [hfst] at hin
  exact absurd hin (by decide)

/-- Witness for C8 at a concrete duplicate error: payload unchanged when
the constraint attribute changes, no `constraint` key, and the detail key
is among the allowed keys. -/
theorem C8_witness :
    ("detail", PVal.s "x").1 ∈ (["detail", "code", "fields"] : List String)
    ∧ "constraint" ∉
        (to_payload (RepositoryError.mk "x" (some ["a"]) (some "uq") (some "duplicate"))).map
          Prod.fst
    ∧ to_payload (RepositoryError.mk "x" (some ["a"]) (some "uq") (some "duplicate"))
      = to_payload (RepositoryError.mk "x" (some ["a"]) none (some "duplicate")) :=
  ⟨(C8_payload_excludes_constraint "x" (some ["a"]) (some "uq") none (some "duplicate")).1
      ("detail", PVal.s "x") (by decide),
    (C8_payload_excludes_constraint "x" (some ["a"]) (some "uq") none (some "duplicate")).2.1,
    (C8_payload_excludes_constraint "x" (some ["a"]) (some "uq") none (some "duplicate")).2.2⟩

/-! ### Lemmas about the embedded regex scanners (for claim C9) -/

/-- A case-insensitive literal matches the text it was lowercased from. -/
theorem matchLitCI_append (pre r : List Char) :
    matchLitCI (pre.map Char.toLower) (pre ++ r) = some r := by
  induction pre with
  | nil => rfl
  | cons c cs ih => simp [matchLitCI, ih]

/-- A successful case-insensitive literal match decomposes the input. -/
theorem matchLitCI_eq_some {lit s r : List Char} (h : matchLitCI lit s = some r) :
    ∃ pre, s = pre ++ r ∧ pre.map Char.toLower = lit := by
  induction lit generalizing s with
  | nil =>
    refine ⟨[], ?_, rfl⟩
    simpa [matchLitCI] using h
  | cons p ps ih =>
    cases s with
    | nil => simp [matchLitCI] at h
    | cons c cs =>
      simp only [matchLitCI] at h
      by_cases hc : c.toLower = p
      · rw [if_pos hc] at h
        obtain ⟨pre, hpre, hmap⟩ := ih h
        exact ⟨c :: pre, by simp [hpre], by simp [hmap, hc]⟩
      · rw [if_neg hc] at h
        exact absurd h (by simp)

/-- Greedy `.*` skips over any newline-free block whose continuation
succeeds further right. -/
theorem dotStarThen_append_of_some {cont : List Char → Option (List Char)} {s r : List Char}
    (v : List Char) (hv : ∀ c ∈ v, c ≠ nlChar) (h : dotStarThen cont s = some r) :
    dotStarThen cont (v ++ s) = some r := by
  induction v with
  | nil => simpa
  | cons c cs ih =>
    have hc : ¬ c = nlChar := hv c (by simp)
    have ihh := ih (fun x hx => hv x (by simp [hx]))
    simp [dotStarThen, hc, ihh]

/-- If the continuation fails at every suffix, `.*` followed by it fails. -/
theorem dotStarThen_eq_none {cont : List Char → Option (List Char)} {input : List Char}
    (h : ∀ s, s <:+ input → cont s = none) : dotStarThen cont input = none := by
  induction input with
  | nil => simpa [dotStarThen] using h [] List.nil_suffix
  | cons c cs ih =>
    have h1 : cont (c :: cs) = none := h _ (List.suffix_refl _)
    have h2 : dotStarThen cont cs = none :=
      ih (fun s hs => h s (hs.trans (List.suffix_cons c cs)))
    by_cases hc : c = nlChar
    · subst hc; simp [dotStarThen, h1]
    · simp [dotStarThen, hc, h1, h2]

/-- `takeWhile` of a quote-free block followed by a quote is the block. -/
theorem takeWhile_append_squote {a : List Char} (b : List Char)
    (ha : ∀ c ∈ a, c ≠ squote) :
    (a ++ squote :: b).takeWhile (fun x => x != squote) = a := by
  induction a with
  | nil => simp [List.takeWhile]
  | cons c cs ih =>
    have hc : (c != squote) = true := by
      simpa using ha c (by simp)
    have ihh := ih (fun x hx => ha x (by simp [hx]))
    simp [List.takeWhile_cons, hc, ihh]

/-- An infix of `l₂ ++ [a]` avoiding `a` is an infix of `l₂`. -/
theorem infix_of_infix_concat {l₁ l₂ : List Char} {a : Char}
    (ha : a ∉ l₁) (h : l₁ <:+: l₂ ++ [a]) : l₁ <:+: l₂ := by
  obtain ⟨t, u, hh⟩ := h
  rcases List.eq_nil_or_concat u with hu | ⟨u2, b, hu⟩
  · subst hu
    rcases List.eq_nil_or_concat l₁ with h1 | ⟨l3, c, h1⟩
    · subst h1; exact List.nil_infix
    · subst h1
      rw [List.append_nil, List.concat_eq_append, ← List.append_assoc] at hh
      have h2 := List.append_inj' hh rfl
      have hac : c = a := by simpa using h2.2
      rw [List.concat_eq_append] at ha
      exact absurd (by simp [hac]) ha
  · subst hu
    rw [List.concat_eq_append, ← List.append_assoc] at hh
    have h2 := List.append_inj' hh rfl
    exact ⟨t, u2, h2.1⟩

/-- The second-pattern continuation fails at every suffix of the trailing
`key'` part, provided the delimiter does not occur (case-insensitively)
inside the key. -/
theorem tryAfter_none_of_suffix {k : List Char}
    (hk : ¬ litSpForKeySp <:+: k.map Char.toLower)
    {s : List Char} (hs : s <:+ k ++ [squote]) : tryAfterDotStar s = none := by
  cases hmatch : matchLitCI litSpForKeySp s with
  | none => simp [tryAfterDotStar, hmatch]
  | some rest =>
    exfalso
    obtain ⟨pre, hspre, hlow⟩ := matchLitCI_eq_some hmatch
    have hpre : pre <+: s := ⟨rest, hspre.symm⟩
    have hinf : pre <:+: k ++ [squote] := hpre.isInfix.trans hs.isInfix
    have hinf2 : pre.map Char.toLower <:+: (k ++ [squote]).map Char.toLower :=
      hinf.map Char.toLower
    rw [hlow, List.map_append] at hinf2
    have hsq : ([squote].map Char.toLower) = [squote] := by decide
    rw [hsq] at hinf2
    exact hk (infix_of_infix_concat (by decide) hinf2)

/-- The second-pattern continuation fails at every proper position inside
`for key '` followed by the quoted key. -/
theorem tryAfter_none_on_tail {k : List Char}
    (hk : ¬ litSpForKeySp <:+: k.map Char.toLower)
    {s : List Char}
    (hs : s <:+ 'f' :: 'o' :: 'r' :: ' ' :: 'k' :: 'e' :: 'y' :: ' ' :: squote
        :: (k ++ [squote])) :
    tryAfterDotStar s = none := by
  rw [List.suffix_cons_iff] at hs
  rcases hs with rfl | hs
  · rfl
  rw [List.suffix_cons_iff] at hs
  rcases hs with rfl | hs
  · rfl
  rw [List.suffix_cons_iff] at hs
  rcases hs with rfl | hs
  · rfl
  rw [List.suffix_cons_iff] at hs
  rcases hs with rfl | hs
  · rfl
  rw [List.suffix_cons_iff] at hs
  rcases hs with rfl | hs
  · rfl
  rw [List.suffix_cons_iff] at hs
  rcases hs with rfl | hs
  · rfl
  rw [List.suffix_cons_iff] at hs
  rcases hs with rfl | hs
  · rfl
  rw [List.suffix_cons_iff] at hs
  rcases hs with rfl | hs
  · rfl
  rw [List.suffix_cons_iff] at hs
  rcases hs with rfl | hs
  · rfl
  exact tryAfter_none_of_suffix hk hs

/-- `re.search` succeeds immediately when the pattern matches at the first
position. -/
theorem searchPos_of_head {tryAt : List Char → Option (List Char)} {input r : List Char}
    (h : tryAt input = some r) : searchPos tryAt input = some r := by
  cases input <;> simp [searchPos, h]

/-- One-step unfolding of `dotStarThen` on a nonempty input. -/
theorem dotStarThen_cons (cont : List Char → Option (List Char)) (c : Char) (cs : List Char) :
    dotStarThen cont (c :: cs)
      = if c = nlChar then cont (c :: cs)
        else
          match dotStarThen cont cs with
          | some r => some r
          | none => cont (c :: cs) := rfl

/-- C9 counterexample: the message `INSERT failed for key 'myidx'` contains
the substring `for key 'myidx'` and is matched by neither the Postgres nor
the SQLite patterns, yet column extraction returns nothing (the first MySQL
regex requires an extra space and the fallback regex requires a
`Duplicate entry` prefix), not `[myidx]` as the claim states. -/
theorem C9_counterexample :
    ("for key " ++ sq ++ "myidx" ++ sq).data <:+: msgC9.data
    ∧ extract_columns_postgres msgC9 = none
    ∧ extract_columns_sqlite msgC9 = none
    ∧ extract_columns_from_integrity excC9 = none
    ∧ extract_columns_from_integrity excC9 ≠ some ["myidx"] :=
  ⟨by decide, rfl, rfl, rfl, by decide⟩

/-- C9 (amended): for a raw driver message of the shape
`Duplicate entry {v} for key '{k}'` — with `v` newline-free, `k` nonempty,
quote-free and not containing the delimiter ` for key ` case-insensitively
— that is matched neither by the Postgres patterns, nor by the SQLite
patterns, nor by the first MySQL pattern (which needs an extra space after
`for key`), column extraction returns the one-element list `[k]` via the
`Duplicate entry` fallback pattern. -/
theorem C9_amended_mysql_extraction
    (v k : String) (exc : IntegrityError) (o : Orig)
    (ho : exc.orig = some o)
    (hmsg : o.str = "Duplicate entry " ++ v ++ " for key " ++ sq ++ k ++ sq)
    (hv : ∀ c ∈ v.data, c ≠ nlChar)
    (hk0 : k.data ≠ [])
    (hkq : ∀ c ∈ k.data, c ≠ squote)
    (hkf : ¬ litSpForKeySp <:+: (pyLower k).data)
    (hA : extract_columns_postgres o.str = none)
    (hB : extract_columns_sqlite o.str = none)
    (hQ : searchPos tryForKeyQuoteSpace o.str.data = none) :
    extract_columns_from_integrity exc = some [k] := by
  have hdata : o.str.data
      = "Duplicate entry ".data ++ (v.data
        ++ (" for key ".data ++ (squote :: (k.data ++ [squote])))) := by
    rw [hmsg]
    simp [String.data_append, sq, List.append_assoc]
  have hcap : (k.data ++ [squote]).takeWhile (fun x => x != squote) = k.data :=
    takeWhile_append_squote [] hkq
  have hke : k.data.isEmpty = false := by
    rw [← Bool.not_eq_true, List.isEmpty_iff]
    exact hk0
  have hcont : tryAfterDotStar
      (' ' :: 'f' :: 'o' :: 'r' :: ' ' :: 'k' :: 'e' :: 'y' :: ' ' :: squote
        :: (k.data ++ [squote])) = some (k.data) := by
    have hm : matchLitCI litSpForKeySp
        (' ' :: 'f' :: 'o' :: 'r' :: ' ' :: 'k' :: 'e' :: 'y' :: ' ' :: squote
          :: (k.data ++ [squote]))
        = some (squote :: (k.data ++ [squote])) := by
      have hlit : ((' ' :: 'f' :: 'o' :: 'r' :: ' ' :: 'k' :: 'e' :: 'y' :: [' ']).map
          Char.toLower) = litSpForKeySp := by decide
      have hap := matchLitCI_append
        (' ' :: 'f' :: 'o' :: 'r' :: ' ' :: 'k' :: 'e' :: 'y' :: [' '])
        (squote :: (k.data ++ [squote]))
      rw [hlit] at hap
      exact hap
    simp [tryAfterDotStar, hm, hcap, hke]
  have hYnone : dotStarThen tryAfterDotStar
      ('f' :: 'o' :: 'r' :: ' ' :: 'k' :: 'e' :: 'y' :: ' ' :: squote :: (k.data ++ [squote]))
      = none := by
    apply dotStarThen_eq_none
    intro s hs
    exact tryAfter_none_on_tail hkf hs
  have hs0 : dotStarThen tryAfterDotStar
      (' ' :: 'f' :: 'o' :: 'r' :: ' ' :: 'k' :: 'e' :: 'y' :: ' ' :: squote
        :: (k.data ++ [squote])) = some k.data := by
    have hsp : ¬ (' ' = nlChar) := by decide
    rw [dotStarThen_cons, if_neg hsp, hYnone]
    exact hcont
  have hdup : tryDupEntry o.str.data = some k.data := by
    rw [hdata]
    have hm : matchLitCI litDupEntry
        ("Duplicate entry ".data
          ++ (v.data ++ (" for key ".data ++ (squote :: (k.data ++ [squote])))))
        = some (v.data ++ (" for key ".data ++ (squote :: (k.data ++ [squote])))) := by
      have hlit : ("Duplicate entry ".data).map Char.toLower = litDupEntry := by decide
      rw [← hlit]
      exact matchLitCI_append _ _
    simp only [tryDupEntry, hm]
    apply dotStarThen_append_of_some v.data hv
    exact hs0
  have hsearch : searchPos tryDupEntry o.str.data = some k.data := searchPos_of_head hdup
  have hmy : extract_columns_mysql o.str = some [k] := by
    have hkk : String.mk k.data = k := rfl
    simp [extract_columns_mysql, hQ, hsearch, hkk]
  simp [extract_columns_from_integrity, msgForExtract, ho, hA, hB, hmy, optColsTruthy]

/-- Witness for the amended C9 at the canonical MySQL duplicate message. -/
theorem C9_amended_witness :
    extract_columns_from_integrity
        ⟨some ⟨none, none,
          "Duplicate entry " ++ (sq ++ "foo" ++ sq) ++ " for key " ++ sq
            ++ "idx_users_email" ++ sq⟩, ""⟩
      = some ["idx_users_email"] :=
  C9_amended_mysql_extraction (sq ++ "foo" ++ sq) "idx_users_email"
    ⟨some ⟨none, none,
      "Duplicate entry " ++ (sq ++ "foo" ++ sq) ++ " for key " ++ sq
        ++ "idx_users_email" ++ sq⟩, ""⟩
    ⟨none, none,
      "Duplicate entry " ++ (sq ++ "foo" ++ sq) ++ " for key " ++ sq
        ++ "idx_users_email" ++ sq⟩
    rfl rfl (by decide) (by decide) (by decide) (by decide) rfl rfl rfl

end App
